import Mathlib

/-!
Verification of the ESMValTool repository fragment: four dataset download
scripts (`merra2`, `esacci_sea_surface_salinity`, `esacci_soil_moisture`,
`hadcrut4`) and the surge-height estimation pipeline.

The download scripts are embedded as trace-producing functions: each script
is modelled as a function from its inputs (and an oracle for the remote
`exists` check) to the list of operations it performs on its downloader
collaborator.  Python `datetime` values are modelled by `PyDate`
(year/month/day, lexicographic comparison); `dateutil`'s
`relativedelta(years=1)` is modelled by `addYear`, which increments the year
and clamps the day to the length of the target month.  `while` loops are
modelled by structurally recursive functions driven by a fuel value that
provably dominates the number of iterations.
-/

/-- A Python `datetime` date (time-of-day components are never used by the
scripts, so they are omitted). -/
structure PyDate where
  year : Nat
  month : Nat
  day : Nat
deriving DecidableEq, Repr

/-- Python `datetime` comparison `a <= b`: lexicographic on
(year, month, day). -/
def PyDate.le (a b : PyDate) : Bool :=
  decide (a.year < b.year) ||
    (a.year == b.year &&
      (decide (a.month < b.month) ||
        (a.month == b.month && decide (a.day ≤ b.day))))

/-- Python `datetime` comparison `a < b`: lexicographic on
(year, month, day). -/
def PyDate.lt (a b : PyDate) : Bool :=
  decide (a.year < b.year) ||
    (a.year == b.year &&
      (decide (a.month < b.month) ||
        (a.month == b.month && decide (a.day < b.day))))

/-- Gregorian leap-year rule, as used by `datetime`/`dateutil`. -/
def isLeap (y : Nat) : Bool :=
  (y % 4 == 0 && y % 100 != 0) || y % 400 == 0

/-- Number of days in a month of a given year. -/
def daysInMonth (y m : Nat) : Nat :=
  if m = 2 then (if isLeap y then 29 else 28)
  else if m = 4 ∨ m = 6 ∨ m = 9 ∨ m = 11 then 30
  else 31

/-- `dateutil.relativedelta.relativedelta(years=1)` added to a date:
the year is incremented and the day is clamped to the length of the
target month (Feb 29 becomes Feb 28 in a non-leap year). -/
def addYear (d : PyDate) : PyDate :=
  ⟨d.year + 1, d.month, min d.day (daysInMonth (d.year + 1) d.month)⟩

/-- Fuel-driven unfolding of the year loop
`while loop_date <= end_date: ...; loop_date += relativedelta(years=1)`:
the list of dates at which the loop body runs. -/
def loopGo : Nat → PyDate → PyDate → List PyDate
  | 0, _, _ => []
  | n + 1, d, e => if d.le e then d :: loopGo n (addYear d) e else []

/-- Dates at which the body of the year loop runs, starting at `d` and
continuing while the current date is `<=` `e`.  The fuel
`e.year + 1 - d.year` dominates the iteration count because `addYear`
increases the year by one each step. -/
def loopDates (d e : PyDate) : List PyDate :=
  loopGo (e.year + 1 - d.year) d e

/-- Boolean check that every element of a list is obtained from its
predecessor by `addYear`. -/
def chainAddYear : List PyDate → Bool
  | a :: b :: rest => (b == addYear a) && chainAddYear (b :: rest)
  | _ => true

/-- Boolean check that a list of dates is strictly increasing. -/
def strictIncr : List PyDate → Bool
  | a :: b :: rest => a.lt b && strictIncr (b :: rest)
  | _ => true

/-- Operations a download script performs: the downloader-collaborator
methods `connect`, `set_cwd`, `exists` (with its result), `download_year`,
`download_folder` and `download_file`, plus attribute writes/reads on the
downloader object and the `os.makedirs` call. -/
inductive Op where
  | connect : Op
  | setCwd : String → Op
  | existsCheck : String → Bool → Op
  | downloadYear : String → Op
  | downloadFolder : String → Op
  | downloadFile : String → List String → Op
  | writeAttr : String → String → Op
  | readAttr : String → Op
  | makeDirs : Op
deriving DecidableEq, Repr

/-- True for the six downloader operations named by the specification. -/
def isCoreOp : Op → Bool
  | Op.connect => true
  | Op.setCwd _ => true
  | Op.existsCheck _ _ => true
  | Op.downloadYear _ => true
  | Op.downloadFolder _ => true
  | Op.downloadFile _ _ => true
  | _ => false

/-- True for every operation the four scripts actually perform: the six
specification operations together with the attribute writes `ftp_name` and
`tier`, the attribute read `local_folder`, and the `os.makedirs` call. -/
def isScriptOp (o : Op) : Bool :=
  isCoreOp o || o == Op.writeAttr "ftp_name" "soil_moisture" ||
    o == Op.writeAttr "tier" "2" || o == Op.readAttr "local_folder" ||
    o == Op.makeDirs

/-- True for `exists` checks. -/
def isExistsCheck : Op → Bool
  | Op.existsCheck _ _ => true
  | _ => false

/-- A trace is guarded when every `download_year` is immediately preceded
by a successful `exists` check for the same name. -/
def guarded : List Op → Bool
  | [] => true
  | Op.downloadYear _ :: _ => false
  | Op.existsCheck y true :: Op.downloadYear z :: rest =>
      (y == z) && guarded rest
  | _ :: rest => guarded rest

/-- Python exceptions the scripts can raise. -/
inductive PyErr where
  | typeError : PyErr
deriving DecidableEq, Repr

namespace Merra2

/-- URL of the MERRA2 folder for one year, from
`esmvaltool/cmorizers/data/downloaders/datasets/merra2.py`. -/
def url (year : Nat) : String :=
  "https://goldsmr4.gesdisc.eosdis.nasa.gov/data/MERRA2_MONTHLY/" ++
    "M2TMNXLND.5.12.4/" ++ toString year ++ "/"

/-- Fuel-driven unfolding of the MERRA2 year loop. -/
def go : Nat → PyDate → PyDate → List Op
  | 0, _, _ => []
  | n + 1, d, e =>
      if d.le e then Op.downloadFolder (url d.year) :: go n (addYear d) e
      else []

/-- The MERRA2 year loop: one `download_folder` per loop date. -/
def loop (d e : PyDate) : List Op :=
  go (e.year + 1 - d.year) d e

/-- `download_dataset` of `merra2.py`.  There is no `None` handling: if
either date is `None` the first evaluation of `loop_date <= end_date`
raises `TypeError` before any operation is performed. -/
def download_dataset (startDate endDate : Option PyDate) :
    List Op × Option PyErr :=
  match startDate, endDate with
  | some d, some e => (loop d e, none)
  | _, _ => ([], some PyErr.typeError)

end Merra2

namespace EsacciSoilMoisture

/-- The ESACCI-SOIL-MOISTURE year loop: one unconditional
`download_year(f'{year}')` per loop date. -/
def go : Nat → PyDate → PyDate → List Op
  | 0, _, _ => []
  | n + 1, d, e =>
      if d.le e then Op.downloadYear (toString d.year) :: go n (addYear d) e
      else []

/-- The ESACCI-SOIL-MOISTURE year loop from its start date. -/
def loop (d e : PyDate) : List Op :=
  go (e.year + 1 - d.year) d e

/-- `download_dataset` of `esacci_soil_moisture.py`: `None` dates default
to 1979-01-01 and 2016-01-01; then the script writes `ftp_name`, connects,
downloads the ancillary folder and runs the year loop. -/
def download_dataset (startDate endDate : Option PyDate) : List Op :=
  let s := startDate.getD ⟨1979, 1, 1⟩
  let e := endDate.getD ⟨2016, 1, 1⟩
  Op.writeAttr "ftp_name" "soil_moisture" :: Op.connect ::
    Op.setCwd "ancillary/v04.2/" :: Op.downloadFolder "." ::
    Op.setCwd "daily_files/COMBINED/v04.2/" :: loop s e

end EsacciSoilMoisture

namespace EsacciSos

/-- One iteration of the ESACCI-SOS year loop: check existence of the year
in the current remote directory and download it only when present. -/
def step (ex : String → String → Bool) (cwd : String) (d : PyDate) :
    List Op :=
  if ex cwd (toString d.year) then
    [Op.existsCheck (toString d.year) true,
      Op.downloadYear (toString d.year)]
  else [Op.existsCheck (toString d.year) false]

/-- Fuel-driven unfolding of the ESACCI-SOS year loop for one version
directory. -/
def go (ex : String → String → Bool) (cwd : String) :
    Nat → PyDate → PyDate → List Op
  | 0, _, _ => []
  | n + 1, d, e =>
      if d.le e then step ex cwd d ++ go ex cwd n (addYear d) e
      else []

/-- The ESACCI-SOS year loop for one version directory. -/
def loop (ex : String → String → Bool) (cwd : String) (d e : PyDate) :
    List Op :=
  go ex cwd (e.year + 1 - d.year) d e

/-- `download_dataset` of `esacci_sea_surface_salinity.py`: `None` dates
default to 2010-01-01 and 2019-01-01; after connecting, the script runs
the year loop once for each of the two version directories. -/
def download_dataset (ex : String → String → Bool)
    (startDate endDate : Option PyDate) : List Op :=
  let s := startDate.getD ⟨2010, 1, 1⟩
  let e := endDate.getD ⟨2019, 1, 1⟩
  Op.connect ::
    (Op.setCwd "v01.8/30days" :: loop ex "v01.8/30days" s e) ++
      (Op.setCwd "v02.31/30days" :: loop ex "v02.31/30days" s e)

end EsacciSos

namespace Hadcrut4

/-- `download_dataset` of `hadcrut4.py`: the date arguments are the
ignored parameters `_` and `__`; the script sets `tier`, creates the local
folder and downloads two fixed files. -/
def download_dataset (startDate endDate : Option PyDate) : List Op :=
  [Op.writeAttr "tier" "2", Op.readAttr "local_folder", Op.makeDirs,
    Op.downloadFile
      ("https://crudata.uea.ac.uk/cru/data/temperature/" ++
        "HadCRUT.4.6.0.0.median.nc") [],
    Op.downloadFile
      "https://crudata.uea.ac.uk/cru/data/temperature/absolute.nc" []]

end Hadcrut4

namespace SurgeEstimator

/-- A gridded field: a list of rows of rational values. -/
abbrev Field := List (List ℚ)

/-- Derivative of a one-dimensional sequence of values: central differences
in the interior, one-sided differences at the two boundary cells, zero for
a sequence with fewer than two entries.  Output has the length of the
input. -/
def grad1 (v : List ℚ) : List ℚ :=
  (List.range v.length).map (fun i =>
    if v.length ≤ 1 then 0
    else if i = 0 then v.getD 1 0 - v.getD 0 0
    else if i = v.length - 1 then v.getD i 0 - v.getD (i - 1) 0
    else (v.getD (i + 1) 0 - v.getD (i - 1) 0) / 2)

/-- Row `j` of the meridional (across-rows) derivative of a field:
central differences in the interior, one-sided differences at the first
and last row, zero for a field with fewer than two rows. -/
def gradMeridAt (f : Field) (j : Nat) : List ℚ :=
  (List.range (f.getD j []).length).map (fun i =>
    if f.length ≤ 1 then 0
    else if j = 0 then (f.getD 1 []).getD i 0 - (f.getD 0 []).getD i 0
    else if j = f.length - 1 then
      (f.getD j []).getD i 0 - (f.getD (j - 1) []).getD i 0
    else ((f.getD (j + 1) []).getD i 0 - (f.getD (j - 1) []).getD i 0) / 2)

/-- Modelled from the spec: the body of `dataprep.grad_psl` is not part of
the provided source (only its import in the `surge_height` package
`__init__.py` is), so the Gradient Preprocessor is modelled from the
specification: it computes the zonal and meridional spatial derivatives of
the sea-level-pressure field as a pure function, using central differences
in the interior and one-sided differences at boundary cells, and each
output field has the grid shape of the input. -/
def grad_psl (f : Field) : Field × Field :=
  (f.map grad1, (List.range f.length).map (fun j => gradMeridAt f j))

/-- Dot product of two value lists (truncating at the shorter one). -/
def dot (a b : List ℚ) : ℚ :=
  (List.zipWith (· * ·) a b).sum

/-- Modelled from the spec: the body of `estimate.build_predictX` is not
part of the provided source, so the Predictor Builder is modelled from the
specification: the predictor vector is the projection of the gradient
field onto the EOF modes, i.e. the dot product of the (flattened) gradient
with each (flattened) basis mode, one coefficient per mode. -/
def build_predictX (grad : Field) (eofs : List Field) : List ℚ :=
  eofs.map (fun mode => dot grad.flatten mode.flatten)

/-- Errors of the estimation pipeline. -/
inductive SurgeError where
  | dimensionMismatch : SurgeError
deriving DecidableEq, Repr

/-- Modelled from the spec: the body of `estimate.estimate_srg` is not
part of the provided source, so the Estimator is modelled from the
specification: the surge-height estimate is the linear combination
`coefficients · predictor + intercept`, and the Estimator fails with
`DimensionMismatchError` when the predictor vector length does not match
the coefficient vector length. -/
def estimate_srg (predictor betas : List ℚ) (intercept : ℚ) :
    Except SurgeError ℚ :=
  if predictor.length = betas.length then
    Except.ok (dot betas predictor + intercept)
  else Except.error SurgeError.dimensionMismatch

/-- Modelled from the spec: the Output Writer stage runs after the
Estimator in the pipeline control flow, so output is written only when
estimation succeeds; on `DimensionMismatchError` the run aborts with no
output written.  The second component is the list of written outputs. -/
def estimateAndSave (predictor betas : List ℚ) (intercept : ℚ) :
    Except SurgeError ℚ × List ℚ :=
  match estimate_srg predictor betas intercept with
  | Except.ok v => (Except.ok v, [v])
  | Except.error err => (Except.error err, [])

/-- Pointwise sum of two fields of the same shape. -/
def addField (a b : Field) : Field :=
  List.zipWith (fun r s => List.zipWith (· + ·) r s) a b

/-- Pointwise sum of two value vectors. -/
def addVec (a b : List ℚ) : List ℚ :=
  List.zipWith (· + ·) a b

/-- Two fields have the same grid shape when they have the same row
lengths (hence also the same number of rows). -/
def sameShape (a b : Field) : Prop :=
  a.map List.length = b.map List.length

/-- The 2×2 all-zero pressure grid of the specification scenario. -/
def zeroGrid22 : Field := [[0, 0], [0, 0]]

end SurgeEstimator

section DateLemmas

theorem PyDate.le_year {d e : PyDate} (h : d.le e = true) :
    d.year ≤ e.year := by
  simp only [PyDate.le, Bool.or_eq_true, Bool.and_eq_true,
    decide_eq_true_eq, beq_iff_eq] at h
  rcases h with h | ⟨h, _⟩ <;> omega

theorem addYear_year (d : PyDate) : (addYear d).year = d.year + 1 := rfl

theorem PyDate.le_false_of_year_lt {d e : PyDate} (h : e.year < d.year) :
    d.le e = false := by
  simp only [PyDate.le, Bool.or_eq_false_iff, Bool.and_eq_false_iff,
    decide_eq_false_iff_not, not_lt, beq_eq_false_iff_ne, ne_eq]
  constructor
  · omega
  · left
    omega

theorem PyDate.lt_addYear (d : PyDate) : d.lt (addYear d) = true := by
  simp [PyDate.lt, addYear]

theorem loopGo_nil {d e : PyDate} (h : d.le e = false) (n : Nat) :
    loopGo n d e = [] := by
  cases n with
  | zero => rfl
  | succ m => simp [loopGo, h]

theorem loopDates_unfold (d e : PyDate) :
    loopDates d e =
      if d.le e then d :: loopDates (addYear d) e else [] := by
  by_cases h : d.le e = true
  · have hy : d.year ≤ e.year := PyDate.le_year h
    have hk : e.year + 1 - d.year = (e.year - d.year) + 1 := by omega
    have hk2 : e.year + 1 - (addYear d).year = e.year - d.year := by
      rw [addYear_year]
      omega
    rw [loopDates, hk]
    simp [loopGo, h, loopDates, hk2]
  · have h0 : d.le e = false := by
      simpa using h
    rw [loopDates, loopGo_nil h0]
    simp [h0]

theorem loopGo_shape (n : Nat) (d e : PyDate) :
    loopGo n d e = [] ∨ ∃ l, loopGo n d e = d :: l := by
  cases n with
  | zero => exact Or.inl rfl
  | succ m =>
    by_cases h : d.le e = true
    · exact Or.inr ⟨loopGo m (addYear d) e, by simp [loopGo, h]⟩
    · left
      simp [loopGo, h]

theorem loopGo_chain (e : PyDate) :
    ∀ n d, chainAddYear (loopGo n d e) = true := by
  intro n
  induction n with
  | zero =>
    intro d
    rfl
  | succ m ih =>
    intro d
    by_cases h : d.le e = true
    · have := loopGo_shape m (addYear d) e
      rcases this with hnil | ⟨l, hl⟩
      · simp [loopGo, h, hnil, chainAddYear]
      · have hm := ih (addYear d)
        rw [hl] at hm
        simp [loopGo, h, hl, chainAddYear, hm]
    · simp only [Bool.not_eq_true] at h
      simp [loopGo, h, chainAddYear]

theorem strictIncr_of_chain :
    ∀ l : List PyDate, chainAddYear l = true → strictIncr l = true := by
  intro l
  induction l with
  | nil => intro _; rfl
  | cons a t ih =>
    intro h
    cases t with
    | nil => rfl
    | cons b r =>
      simp only [chainAddYear, Bool.and_eq_true, beq_iff_eq] at h
      obtain ⟨hb, hr⟩ := h
      have hlt : a.lt b = true := by
        rw [hb]
        exact PyDate.lt_addYear a
      simp [strictIncr, hlt, ih hr]

theorem loopGo_all_le (e : PyDate) :
    ∀ n d, (loopGo n d e).all (fun x => x.le e) = true := by
  intro n
  induction n with
  | zero =>
    intro d
    rfl
  | succ m ih =>
    intro d
    by_cases h : d.le e = true
    · simp [loopGo, h, ih (addYear d)]
    · simp only [Bool.not_eq_true] at h
      simp [loopGo, h]

theorem loopDates_head {d e : PyDate} (h : d.le e = true) :
    (loopDates d e).head? = some d := by
  rw [loopDates_unfold]
  simp [h]

theorem loopDates_last :
    ∀ k d e, e.year - d.year ≤ k → d.le e = true →
      (addYear ((loopDates d e).getLastD d)).le e = false := by
  intro k
  induction k with
  | zero =>
    intro d e hk h
    have hy : d.year ≤ e.year := PyDate.le_year h
    have hnext : (addYear d).le e = false := by
      apply PyDate.le_false_of_year_lt
      rw [addYear_year]
      omega
    rw [loopDates_unfold, if_pos h, loopDates_unfold, if_neg]
    · simpa [List.getLastD] using hnext
    · simp [hnext]
  | succ m ih =>
    intro d e hk h
    by_cases h2 : (addYear d).le e = true
    · have hrec := ih (addYear d) e (by rw [addYear_year]; omega) h2
      rw [loopDates_unfold, if_pos h]
      have hne : loopDates (addYear d) e =
          addYear d :: loopDates (addYear (addYear d)) e := by
        rw [loopDates_unfold, if_pos h2]
      rw [hne]
      rw [hne] at hrec
      simpa [List.getLastD_cons] using hrec
    · have h2f : (addYear d).le e = false := by
        simpa using h2
      rw [loopDates_unfold, if_pos h, loopDates_unfold, if_neg]
      · simpa [List.getLastD] using h2f
      · simp [h2f]

end DateLemmas

section ScriptLemmas

theorem merra2_go_eq (e : PyDate) :
    ∀ n d, Merra2.go n d e =
      (loopGo n d e).map (fun x => Op.downloadFolder (Merra2.url x.year)) := by
  intro n
  induction n with
  | zero =>
    intro d
    rfl
  | succ m ih =>
    intro d
    by_cases h : d.le e = true
    · simp [Merra2.go, loopGo, h, ih (addYear d)]
    · simp only [Bool.not_eq_true] at h
      simp [Merra2.go, loopGo, h]

theorem merra2_loop_eq (d e : PyDate) :
    Merra2.loop d e =
      (loopDates d e).map (fun x => Op.downloadFolder (Merra2.url x.year)) :=
  merra2_go_eq e (e.year + 1 - d.year) d

theorem soil_go_eq (e : PyDate) :
    ∀ n d, EsacciSoilMoisture.go n d e =
      (loopGo n d e).map (fun x => Op.downloadYear (toString x.year)) := by
  intro n
  induction n with
  | zero =>
    intro d
    rfl
  | succ m ih =>
    intro d
    by_cases h : d.le e = true
    · simp [EsacciSoilMoisture.go, loopGo, h, ih (addYear d)]
    · simp only [Bool.not_eq_true] at h
      simp [EsacciSoilMoisture.go, loopGo, h]

theorem soil_loop_eq (d e : PyDate) :
    EsacciSoilMoisture.loop d e =
      (loopDates d e).map (fun x => Op.downloadYear (toString x.year)) :=
  soil_go_eq e (e.year + 1 - d.year) d

theorem sos_go_eq (ex : String → String → Bool) (cwd : String)
    (e : PyDate) :
    ∀ n d, EsacciSos.go ex cwd n d e =
      ((loopGo n d e).map (EsacciSos.step ex cwd)).flatten := by
  intro n
  induction n with
  | zero =>
    intro d
    rfl
  | succ m ih =>
    intro d
    by_cases h : d.le e = true
    · simp [EsacciSos.go, loopGo, h, ih (addYear d)]
    · simp only [Bool.not_eq_true] at h
      simp [EsacciSos.go, loopGo, h]

theorem sos_loop_eq (ex : String → String → Bool) (cwd : String)
    (d e : PyDate) :
    EsacciSos.loop ex cwd d e =
      ((loopDates d e).map (EsacciSos.step ex cwd)).flatten :=
  sos_go_eq ex cwd e (e.year + 1 - d.year) d

theorem sos_go_guarded (ex : String → String → Bool) (cwd : String)
    (e : PyDate) :
    ∀ n d tail, guarded tail = true →
      guarded (EsacciSos.go ex cwd n d e ++ tail) = true := by
  intro n
  induction n with
  | zero =>
    intro d tail ht
    simpa [EsacciSos.go] using ht
  | succ m ih =>
    intro d tail ht
    by_cases h : d.le e = true
    · by_cases hex : ex cwd (toString d.year) = true
      · simp only [EsacciSos.go, h, if_pos, EsacciSos.step, hex,
          List.cons_append, List.append_assoc]
        simp [guarded, ih (addYear d) tail ht]
      · simp only [Bool.not_eq_true] at hex
        simp only [EsacciSos.go, h, if_pos, EsacciSos.step, hex,
          List.cons_append, List.append_assoc]
        simp [guarded, ih (addYear d) tail ht]
    · simp only [Bool.not_eq_true] at h
      simpa [EsacciSos.go, h] using ht

theorem sos_go_download_avail (ex : String → String → Bool) (cwd : String)
    (e : PyDate) :
    ∀ n d, (EsacciSos.go ex cwd n d e).all
      (fun o => match o with
        | Op.downloadYear y => ex cwd y
        | _ => true) = true := by
  intro n
  induction n with
  | zero =>
    intro d
    rfl
  | succ m ih =>
    intro d
    by_cases h : d.le e = true
    · by_cases hex : ex cwd (toString d.year) = true
      · simp [EsacciSos.go, h, EsacciSos.step, hex, ih (addYear d)]
      · simp only [Bool.not_eq_true] at hex
        simp [EsacciSos.go, h, EsacciSos.step, hex, ih (addYear d)]
    · simp only [Bool.not_eq_true] at h
      simp [EsacciSos.go, h]

theorem soil_no_existsCheck (startDate endDate : Option PyDate) :
    (EsacciSoilMoisture.download_dataset startDate endDate).all
      (fun o => !isExistsCheck o) = true := by
  simp only [EsacciSoilMoisture.download_dataset, soil_loop_eq, List.all_cons,
    List.all_map, Bool.and_eq_true]
  refine ⟨rfl, rfl, rfl, rfl, rfl, ?_⟩
  apply List.all_eq_true.mpr
  intro x hx
  obtain ⟨y, _, rfl⟩ := List.mem_map.mp hx
  rfl

theorem merra2_go_core (e : PyDate) :
    ∀ n d, (Merra2.go n d e).all isCoreOp = true := by
  intro n
  induction n with
  | zero =>
    intro d
    rfl
  | succ m ih =>
    intro d
    by_cases h : d.le e = true
    · simp [Merra2.go, h, isCoreOp, ih (addYear d)]
    · simp only [Bool.not_eq_true] at h
      simp [Merra2.go, h]

theorem soil_go_core (e : PyDate) :
    ∀ n d, (EsacciSoilMoisture.go n d e).all isCoreOp = true := by
  intro n
  induction n with
  | zero =>
    intro d
    rfl
  | succ m ih =>
    intro d
    by_cases h : d.le e = true
    · simp [EsacciSoilMoisture.go, h, isCoreOp, ih (addYear d)]
    · simp only [Bool.not_eq_true] at h
      simp [EsacciSoilMoisture.go, h]

theorem sos_go_core (ex : String → String → Bool) (cwd : String)
    (e : PyDate) :
    ∀ n d, (EsacciSos.go ex cwd n d e).all isCoreOp = true := by
  intro n
  induction n with
  | zero =>
    intro d
    rfl
  | succ m ih =>
    intro d
    by_cases h : d.le e = true
    · by_cases hex : ex cwd (toString d.year) = true
      · simp [EsacciSos.go, h, EsacciSos.step, hex, isCoreOp,
          ih (addYear d)]
      · simp only [Bool.not_eq_true] at hex
        simp [EsacciSos.go, h, EsacciSos.step, hex, isCoreOp,
          ih (addYear d)]
    · simp only [Bool.not_eq_true] at h
      simp [EsacciSos.go, h]

theorem all_scriptOp_of_core {l : List Op} (h : l.all isCoreOp = true) :
    l.all isScriptOp = true := by
  apply List.all_eq_true.mpr
  intro x hx
  have hc : isCoreOp x = true := List.all_eq_true.mp h x hx
  simp [isScriptOp, hc]

end ScriptLemmas

section GuardedLemmas

theorem guarded_connect (rest : List Op) :
    guarded (Op.connect :: rest) = guarded rest := by
  cases rest with
  | nil => rfl
  | cons a t => rfl

theorem guarded_setCwd (s : String) (rest : List Op) :
    guarded (Op.setCwd s :: rest) = guarded rest := by
  cases rest with
  | nil => rfl
  | cons a t => rfl

end GuardedLemmas

namespace SurgeEstimator

theorem grad1_length (v : List ℚ) : (grad1 v).length = v.length := by
  simp [grad1]

theorem gradMeridAt_length (f : Field) (j : Nat) :
    (gradMeridAt f j).length = (f.getD j []).length := by
  simp [gradMeridAt]

theorem range_getD_length :
    ∀ f : Field,
      (List.range f.length).map (fun j => (f.getD j []).length) =
        f.map List.length := by
  intro f
  induction f with
  | nil => rfl
  | cons a t ih =>
    rw [List.length_cons, List.range_succ_eq_map, List.map_cons,
      List.map_map, List.map_cons]
    refine congrArg₂ _ rfl ?_
    rw [← ih]
    apply List.map_congr_left
    intro j _
    rfl

theorem dot_addVec :
    ∀ a b m : List ℚ, a.length = b.length →
      dot (addVec a b) m = dot a m + dot b m := by
  intro a
  induction a with
  | nil =>
    intro b m h
    have hb : b = [] := by
      cases b with
      | nil => rfl
      | cons y ys => simp at h
    subst hb
    simp [dot, addVec]
  | cons x xs ih =>
    intro b m h
    cases b with
    | nil => simp at h
    | cons y ys =>
      cases m with
      | nil => simp [dot, addVec]
      | cons z zs =>
        have h2 : dot (addVec xs ys) zs = dot xs zs + dot ys zs :=
          ih ys zs (by simpa using h)
        simp only [addVec, List.zipWith_cons_cons, dot,
          List.sum_cons] at h2 ⊢
        rw [h2]
        ring

theorem flatten_addField :
    ∀ a b : Field, sameShape a b →
      (addField a b).flatten = addVec a.flatten b.flatten := by
  intro a
  induction a with
  | nil =>
    intro b h
    have hb : b = [] := by
      simpa [sameShape, eq_comm, List.map_eq_nil_iff] using h
    subst hb
    rfl
  | cons r rs ih =>
    intro b h
    cases b with
    | nil => simp [sameShape] at h
    | cons s ss =>
      have hh : r.length = s.length ∧ sameShape rs ss := by
        simpa [sameShape] using h
      have hflat : (addField rs ss).flatten = addVec rs.flatten ss.flatten :=
        ih ss hh.2
      simp only [addField, addVec, List.zipWith_cons_cons,
        List.flatten_cons] at hflat ⊢
      rw [hflat, List.zipWith_append _ _ _ _ _ hh.1]

theorem map_addVec {α : Type} (l : List α) (f g : α → ℚ) :
    addVec (l.map f) (l.map g) = l.map (fun x => f x + g x) := by
  induction l with
  | nil => rfl
  | cons a t ih =>
    simp only [List.map_cons, addVec, List.zipWith_cons_cons]
    exact congrArg (List.cons _) ih

theorem dot_nil_right (b : List ℚ) : dot b [] = 0 := by
  cases b <;> simp [dot]

theorem dot_replicate_zero_left :
    ∀ (n : Nat) (m : List ℚ), dot (List.replicate n 0) m = 0 := by
  intro n
  induction n with
  | zero => intro m; simp [dot]
  | succ k ih =>
    intro m
    cases m with
    | nil => simp [dot]
    | cons z zs =>
      have h2 := ih zs
      simp only [List.replicate_succ, dot, List.zipWith_cons_cons,
        List.sum_cons] at h2 ⊢
      rw [h2]
      ring

theorem dot_replicate_zero_right :
    ∀ (b : List ℚ) (n : Nat), dot b (List.replicate n 0) = 0 := by
  intro b
  induction b with
  | nil => intro n; simp [dot]
  | cons x xs ih =>
    intro n
    cases n with
    | zero => simp [dot]
    | succ k =>
      have h2 := ih k
      simp only [List.replicate_succ, dot, List.zipWith_cons_cons,
        List.sum_cons] at h2 ⊢
      rw [h2]
      ring

theorem map_zero_replicate {α : Type} (l : List α) :
    l.map (fun _ => (0 : ℚ)) = List.replicate l.length 0 := by
  induction l with
  | nil => rfl
  | cons a t ih => simp [List.replicate_succ, ih]

theorem grad_psl_zero22 : grad_psl zeroGrid22 = (zeroGrid22, zeroGrid22) := by
  have h2 : List.range 2 = [0, 1] := rfl
  simp [grad_psl, grad1, gradMeridAt, zeroGrid22, h2]

theorem build_predictX_zero22 (eofs : List Field) :
    build_predictX (grad_psl zeroGrid22).1 eofs =
      List.replicate eofs.length 0 := by
  rw [grad_psl_zero22]
  show build_predictX zeroGrid22 eofs = _
  have hz : zeroGrid22.flatten = List.replicate 4 0 := rfl
  simp only [build_predictX, hz, dot_replicate_zero_left]
  exact map_zero_replicate eofs

end SurgeEstimator

/-- C1: for every call to `download_dataset` with non-`None` dates where
`start_date <= end_date`, the year loop runs once per year in strictly
increasing chronological order: the first loop date is `start_date`, each
successive loop date is one calendar year later (`relativedelta(years=1)`),
every loop date is `<=` `end_date` and one more year step would exceed
`end_date`; when `start_date > end_date` the loop body never runs and no
download operation is performed.  The per-script conjuncts show that each
script performs its per-year download step exactly once per loop date. -/
theorem C1_year_loop_schedule (ex : String → String → Bool) (cwd : String)
    (d e : PyDate) :
    (d.le e = true →
      (loopDates d e).head? = some d ∧
      chainAddYear (loopDates d e) = true ∧
      strictIncr (loopDates d e) = true ∧
      (loopDates d e).all (fun x => x.le e) = true ∧
      (addYear ((loopDates d e).getLastD d)).le e = false) ∧
    (d.le e = false →
      loopDates d e = [] ∧ Merra2.loop d e = [] ∧
      EsacciSoilMoisture.loop d e = [] ∧
      EsacciSos.loop ex cwd d e = []) ∧
    Merra2.loop d e =
      (loopDates d e).map (fun x => Op.downloadFolder (Merra2.url x.year)) ∧
    EsacciSoilMoisture.loop d e =
      (loopDates d e).map (fun x => Op.downloadYear (toString x.year)) ∧
    EsacciSos.loop ex cwd d e =
      ((loopDates d e).map (EsacciSos.step ex cwd)).flatten := by
  refine ⟨?_, ?_, merra2_loop_eq d e, soil_loop_eq d e,
    sos_loop_eq ex cwd d e⟩
  · intro h
    exact ⟨loopDates_head h, loopGo_chain e _ d,
      strictIncr_of_chain _ (loopGo_chain e _ d), loopGo_all_le e _ d,
      loopDates_last (e.year - d.year) d e (Nat.le_refl _) h⟩
  · intro h
    have hnil : loopDates d e = [] := by
      rw [loopDates_unfold]
      simp [h]
    refine ⟨hnil, ?_, ?_, ?_⟩
    · rw [merra2_loop_eq, hnil]
      rfl
    · rw [soil_loop_eq, hnil]
      rfl
    · rw [sos_loop_eq, hnil]
      rfl

/-- Witness for C1 at concrete inputs: the increasing-schedule conjuncts
at start 2000-01-01 and end 2002-06-15, and the empty-loop conjuncts at
start 2003-01-01 and end 2002-01-01. -/
theorem C1_year_loop_schedule_witness :
    ((loopDates ⟨2000, 1, 1⟩ ⟨2002, 6, 15⟩).head? = some ⟨2000, 1, 1⟩ ∧
      chainAddYear (loopDates ⟨2000, 1, 1⟩ ⟨2002, 6, 15⟩) = true ∧
      strictIncr (loopDates ⟨2000, 1, 1⟩ ⟨2002, 6, 15⟩) = true ∧
      (loopDates ⟨2000, 1, 1⟩ ⟨2002, 6, 15⟩).all
        (fun x => x.le ⟨2002, 6, 15⟩) = true ∧
      (addYear ((loopDates ⟨2000, 1, 1⟩ ⟨2002, 6, 15⟩).getLastD
        ⟨2000, 1, 1⟩)).le ⟨2002, 6, 15⟩ = false) ∧
    (loopDates ⟨2003, 1, 1⟩ ⟨2002, 1, 1⟩ = [] ∧
      Merra2.loop ⟨2003, 1, 1⟩ ⟨2002, 1, 1⟩ = [] ∧
      EsacciSoilMoisture.loop ⟨2003, 1, 1⟩ ⟨2002, 1, 1⟩ = [] ∧
      EsacciSos.loop (fun _ _ => true) "v01.8/30days"
        ⟨2003, 1, 1⟩ ⟨2002, 1, 1⟩ = []) :=
  ⟨(C1_year_loop_schedule (fun _ _ => true) "v01.8/30days"
      ⟨2000, 1, 1⟩ ⟨2002, 6, 15⟩).1 (by decide),
    (C1_year_loop_schedule (fun _ _ => true) "v01.8/30days"
      ⟨2003, 1, 1⟩ ⟨2002, 1, 1⟩).2.1 (by decide)⟩

/-- C2 is false as stated: the ESACCI-SOIL-MOISTURE year loop calls
`download_year` for 1979 although its trace contains no `exists` check at
all (the script never calls `downloader.exists`). -/
theorem C2_counterexample :
    Op.downloadYear "1979" ∈
      EsacciSoilMoisture.download_dataset none (some ⟨1979, 6, 1⟩) ∧
    (EsacciSoilMoisture.download_dataset none (some ⟨1979, 6, 1⟩)).all
      (fun o => !isExistsCheck o) = true := by
  decide

/-- C2 amended: in the ESACCI sea-surface-salinity script every
`download_year` is immediately preceded by a successful `exists` check for
the same year, a year whose `exists` check fails is skipped (its year is
downloaded only when the oracle reports it available), while the
ESACCI soil-moisture year loop downloads every year unconditionally and
performs no `exists` check. -/
theorem C2_amended_guarded (ex : String → String → Bool) (cwd : String)
    (sd ed : Option PyDate) (d e : PyDate) :
    guarded (EsacciSos.download_dataset ex sd ed) = true ∧
    (EsacciSos.loop ex cwd d e).all
      (fun o => match o with
        | Op.downloadYear y => ex cwd y
        | _ => true) = true ∧
    (EsacciSoilMoisture.download_dataset sd ed).all
      (fun o => !isExistsCheck o) = true := by
  refine ⟨?_, sos_go_download_avail ex cwd e _ d,
    soil_no_existsCheck sd ed⟩
  show guarded (Op.connect :: (Op.setCwd _ :: EsacciSos.loop _ _ _ _) ++
    (Op.setCwd _ :: EsacciSos.loop _ _ _ _)) = true
  rw [List.cons_append, guarded_connect, List.cons_append, guarded_setCwd]
  apply sos_go_guarded
  rw [guarded_setCwd]
  have h := sos_go_guarded ex "v02.31/30days"
    (ed.getD ⟨2019, 1, 1⟩) ((ed.getD ⟨2019, 1, 1⟩).year + 1 -
      (sd.getD ⟨2010, 1, 1⟩).year) (sd.getD ⟨2010, 1, 1⟩) [] rfl
  simpa using h

/-- C3 is false as stated: the soil-moisture script writes the `ftp_name`
attribute of its downloader, which is not one of the six operations
`connect`, `set_cwd`, `exists`, `download_year`, `download_folder`,
`download_file`. -/
theorem C3_counterexample :
    Op.writeAttr "ftp_name" "soil_moisture" ∈
      EsacciSoilMoisture.download_dataset (some ⟨2020, 1, 1⟩)
        (some ⟨2019, 1, 1⟩) ∧
    isCoreOp (Op.writeAttr "ftp_name" "soil_moisture") = false := by
  decide

/-- C3 amended: every interaction of the four download scripts with their
downloader collaborators goes through the six specified operations, the
attribute writes `ftp_name = 'soil_moisture'` (soil moisture) and
`tier = 2` (HadCRUT4), the attribute read `local_folder` (HadCRUT4), and
the `os.makedirs` call on that folder. -/
theorem C3_amended_interactions (ex : String → String → Bool)
    (sd ed : Option PyDate) :
    ((Merra2.download_dataset sd ed).1).all isScriptOp = true ∧
    (EsacciSoilMoisture.download_dataset sd ed).all isScriptOp = true ∧
    (EsacciSos.download_dataset ex sd ed).all isScriptOp = true ∧
    (Hadcrut4.download_dataset sd ed).all isScriptOp = true := by
  refine ⟨?_, ?_, ?_, rfl⟩
  · cases sd with
    | none => rfl
    | some d =>
      cases ed with
      | none => rfl
      | some e =>
        exact all_scriptOp_of_core (merra2_go_core e _ d)
  · apply List.all_eq_true.mpr
    intro x hx
    simp only [EsacciSoilMoisture.download_dataset, List.mem_cons] at hx
    rcases hx with rfl | rfl | rfl | rfl | rfl | hx
    · rfl
    · rfl
    · rfl
    · rfl
    · rfl
    · exact List.all_eq_true.mp
        (all_scriptOp_of_core (soil_go_core _ _ _)) x hx
  · apply List.all_eq_true.mpr
    intro x hx
    simp only [EsacciSos.download_dataset, List.cons_append,
      List.mem_cons, List.mem_append] at hx
    rcases hx with rfl | rfl | hx | rfl | hx
    · rfl
    · rfl
    · exact List.all_eq_true.mp
        (all_scriptOp_of_core (sos_go_core ex _ _ _ _)) x hx
    · rfl
    · exact List.all_eq_true.mp
        (all_scriptOp_of_core (sos_go_core ex _ _ _ _)) x hx

/-- C8: when `start_date` or `end_date` is `None`, the ESACCI
sea-surface-salinity script substitutes 2010-01-01 / 2019-01-01 and the
ESACCI soil-moisture script substitutes 1979-01-01 / 2016-01-01 before any
iteration begins: the whole trace equals the trace with the default
supplied explicitly. -/
theorem C8_default_dates (ex : String → String → Bool)
    (sd ed : Option PyDate) :
    EsacciSos.download_dataset ex none ed =
      EsacciSos.download_dataset ex (some ⟨2010, 1, 1⟩) ed ∧
    EsacciSos.download_dataset ex sd none =
      EsacciSos.download_dataset ex sd (some ⟨2019, 1, 1⟩) ∧
    EsacciSoilMoisture.download_dataset none ed =
      EsacciSoilMoisture.download_dataset (some ⟨1979, 1, 1⟩) ed ∧
    EsacciSoilMoisture.download_dataset sd none =
      EsacciSoilMoisture.download_dataset sd (some ⟨2016, 1, 1⟩) :=
  ⟨rfl, rfl, rfl, rfl⟩

/-- C9: the MERRA2 script has no `None` handling: if either date is
`None`, the first evaluation of the loop condition
`loop_date <= end_date` compares `None` with a datetime and raises
`TypeError`, so no download operation is performed; both dates must be
datetimes for the loop to run. -/
theorem C9_merra2_none_dates (sd ed : Option PyDate)
    (h : sd = none ∨ ed = none) :
    Merra2.download_dataset sd ed = ([], some PyErr.typeError) := by
  rcases h with h | h
  · subst h
    cases ed <;> rfl
  · subst h
    cases sd <;> rfl

/-- Witness for C9: calling the MERRA2 script with `start_date = None`
performs no operation and raises `TypeError`. -/
theorem C9_merra2_none_dates_witness :
    Merra2.download_dataset none (some ⟨2000, 1, 1⟩) =
      ([], some PyErr.typeError) :=
  C9_merra2_none_dates none (some ⟨2000, 1, 1⟩) (Or.inl rfl)

/-- C6: for every input field, the Gradient Preprocessor `grad_psl` (a
pure function in this model) returns zonal and meridional gradient fields
with the same grid shape as the input: same row count and same row
lengths. -/
theorem C6_grad_psl_shape (f : SurgeEstimator.Field) :
    ((SurgeEstimator.grad_psl f).1).map List.length = f.map List.length ∧
    ((SurgeEstimator.grad_psl f).2).map List.length = f.map List.length := by
  constructor
  · simp only [SurgeEstimator.grad_psl, List.map_map]
    apply List.map_congr_left
    intro a _
    exact SurgeEstimator.grad1_length a
  · simp only [SurgeEstimator.grad_psl, List.map_map]
    rw [← SurgeEstimator.range_getD_length f]
    apply List.map_congr_left
    intro j _
    exact SurgeEstimator.gradMeridAt_length f j

/-- C5: the Predictor Builder `build_predictX` is linear: for gradient
fields of the same grid shape and any EOF basis, the projection of the
pointwise sum of the two fields is the pointwise sum of their individual
projections. -/
theorem C5_build_predictX_linear (g1 g2 : SurgeEstimator.Field)
    (eofs : List SurgeEstimator.Field)
    (h : SurgeEstimator.sameShape g1 g2) :
    SurgeEstimator.build_predictX (SurgeEstimator.addField g1 g2) eofs =
      SurgeEstimator.addVec (SurgeEstimator.build_predictX g1 eofs)
        (SurgeEstimator.build_predictX g2 eofs) := by
  have hmap : g1.map List.length = g2.map List.length := h
  have hflat := SurgeEstimator.flatten_addField g1 g2 h
  have hlen : g1.flatten.length = g2.flatten.length := by
    rw [List.length_flatten, List.length_flatten, hmap]
  simp only [SurgeEstimator.build_predictX, hflat]
  rw [SurgeEstimator.map_addVec]
  apply List.map_congr_left
  intro m _
  exact SurgeEstimator.dot_addVec _ _ _ hlen

/-- Witness for C5 at concrete fields of shape [2, 1] and a one-mode EOF
basis. -/
theorem C5_build_predictX_linear_witness :
    SurgeEstimator.sameShape [[(1 : ℚ), 2], [3]] [[(4 : ℚ), 0], [5]] ∧
    SurgeEstimator.build_predictX
      (SurgeEstimator.addField [[(1 : ℚ), 2], [3]] [[(4 : ℚ), 0], [5]])
      [[[(1 : ℚ), 1], [1]]] =
      SurgeEstimator.addVec
        (SurgeEstimator.build_predictX [[(1 : ℚ), 2], [3]]
          [[[(1 : ℚ), 1], [1]]])
        (SurgeEstimator.build_predictX [[(4 : ℚ), 0], [5]]
          [[[(1 : ℚ), 1], [1]]]) :=
  ⟨rfl, C5_build_predictX_linear _ _ _ rfl⟩

/-- C4: whenever the predictor vector length differs from the coefficient
vector length, the Estimator `estimate_srg` fails with
`DimensionMismatchError`, and the pipeline writes no output. -/
theorem C4_dimension_mismatch (predictor betas : List ℚ) (intercept : ℚ)
    (h : predictor.length ≠ betas.length) :
    SurgeEstimator.estimate_srg predictor betas intercept =
      Except.error SurgeEstimator.SurgeError.dimensionMismatch ∧
    (SurgeEstimator.estimateAndSave predictor betas intercept).2 = [] := by
  have he : SurgeEstimator.estimate_srg predictor betas intercept =
      Except.error SurgeEstimator.SurgeError.dimensionMismatch := by
    simp [SurgeEstimator.estimate_srg, h]
  refine ⟨he, ?_⟩
  simp [SurgeEstimator.estimateAndSave, he]

/-- Witness for C4 at the specification scenario: 5 coefficients against
4 predictors. -/
theorem C4_dimension_mismatch_witness :
    ([(1 : ℚ), 2, 3, 4].length ≠ [(1 : ℚ), 2, 3, 4, 5].length) ∧
    (SurgeEstimator.estimate_srg [(1 : ℚ), 2, 3, 4] [(1 : ℚ), 2, 3, 4, 5]
        0 = Except.error SurgeEstimator.SurgeError.dimensionMismatch ∧
      (SurgeEstimator.estimateAndSave [(1 : ℚ), 2, 3, 4]
        [(1 : ℚ), 2, 3, 4, 5] 0).2 = []) :=
  ⟨by decide, C4_dimension_mismatch _ _ _ (by decide)⟩

/-- C7: on the 2×2 all-zero pressure grid, the Gradient Preprocessor
returns all-zero gradients, the Predictor Builder returns the zero
predictor vector, and (for coefficient vectors of matching length) the
Estimator returns exactly the intercept. -/
theorem C7_zero_grid_scenario :
    SurgeEstimator.grad_psl SurgeEstimator.zeroGrid22 =
      (SurgeEstimator.zeroGrid22, SurgeEstimator.zeroGrid22) ∧
    (∀ eofs : List SurgeEstimator.Field,
      SurgeEstimator.build_predictX
        (SurgeEstimator.grad_psl SurgeEstimator.zeroGrid22).1 eofs =
        List.replicate eofs.length 0) ∧
    (∀ (eofs : List SurgeEstimator.Field) (betas : List ℚ)
        (intercept : ℚ), betas.length = eofs.length →
      SurgeEstimator.estimate_srg
        (SurgeEstimator.build_predictX
          (SurgeEstimator.grad_psl SurgeEstimator.zeroGrid22).1 eofs)
        betas intercept = Except.ok intercept) := by
  refine ⟨SurgeEstimator.grad_psl_zero22,
    SurgeEstimator.build_predictX_zero22, ?_⟩
  intro eofs betas intercept hlen
  rw [SurgeEstimator.build_predictX_zero22]
  simp only [SurgeEstimator.estimate_srg, List.length_replicate]
  rw [if_pos hlen.symm, SurgeEstimator.dot_replicate_zero_right,
    zero_add]

/-- Witness for C7 with a one-mode EOF basis and one coefficient. -/
theorem C7_zero_grid_scenario_witness :
    ([(2 : ℚ)].length =
      ([[[(1 : ℚ), 2], [3, 4]]] : List SurgeEstimator.Field).length) ∧
    SurgeEstimator.estimate_srg
      (SurgeEstimator.build_predictX
        (SurgeEstimator.grad_psl SurgeEstimator.zeroGrid22).1
        [[[(1 : ℚ), 2], [3, 4]]]) [(2 : ℚ)] 5 = Except.ok 5 :=
  ⟨by decide,
    C7_zero_grid_scenario.2.2 [[[(1 : ℚ), 2], [3, 4]]] [(2 : ℚ)] 5
      (by decide)⟩

/-- C10: the HadCRUT4 script ignores the requested date interval: its
trace is the same for all date arguments, and always consists of setting
`tier`, reading `local_folder`, creating that folder, then downloading
the median file and the absolute file in that order. -/
theorem C10_hadcrut4_ignores_dates (sd ed sd2 ed2 : Option PyDate) :
    Hadcrut4.download_dataset sd ed = Hadcrut4.download_dataset sd2 ed2 ∧
    Hadcrut4.download_dataset sd ed =
      [Op.writeAttr "tier" "2", Op.readAttr "local_folder", Op.makeDirs,
        Op.downloadFile
          ("https://crudata.uea.ac.uk/cru/data/temperature/" ++
            "HadCRUT.4.6.0.0.median.nc") [],
        Op.downloadFile
          "https://crudata.uea.ac.uk/cru/data/temperature/absolute.nc"
          []] :=
  ⟨rfl, rfl⟩
